import Mathlib

/-!
Shallow embedding of `drake/core/Core.h`: the Vector concept helpers
(`size`, `getRandomVector`), the `CombinedVector` pair-wrapper, and the
compile-time dispatch of `CombinedVectorBuilder` / `CombinedVectorUtil`.

Modelling conventions:
* A value of a type satisfying the Vector concept is represented by its
  canonical dense form, a `List α` of scalars; `toEigen` for a plain Eigen
  column vector (`Core.h` line 46) is then the identity.
* `RowsAtCompileTime` is an `Int`; the Eigen dynamic sentinel
  `Eigen::Dynamic` is `-1`.  The concept requires the row count to be
  scalar-independent, so one `Int` per vector type constructor suffices.
* The builder/util template dispatch is a function of the two row counts.
  C++ partial-specialization resolution for the three templates involved:
  the primary template applies when no specialization matches; a unique
  matching specialization wins; when both `enable_if` specializations match
  (both row counts zero) neither is more specialized than the other, so the
  instantiation is ambiguous and ill-formed — modelled as `none`.
-/

namespace Drake

/-- Models `toEigen` for a plain Eigen column vector (`Core.h` line 46): the
identity on the dense representation. -/
def toEigenVec {α : Type} (vec : List α) : List α := vec

/-- Models Eigen's `x.topRows(n)`: the leading `n` entries of the dense vector. -/
def topRows {α : Type} (n : Nat) (x : List α) : List α := x.take n

/-- Models Eigen's `x.bottomRows(n)`: the trailing `n` entries of the dense vector. -/
def bottomRows {α : Type} (n : Nat) (x : List α) : List α := x.drop (x.length - n)

/-- Models `NullVector<ScalarType>()`: the empty (0-row) vector, dense form `[]`. -/
def nullVector (α : Type) : List α := []

/-- A value of some type satisfying the Vector concept, for the generic
`size` query: its static `RowsAtCompileTime` together with its dense
content (whose length is what the run-time `size()` method reports). -/
structure VecVal (α : Type) where
  rowsAtCompileTime : Int
  val : List α

/-- The run-time `size()` member required by the concept when the static
row count is dynamic. -/
def VecVal.runtimeSize {α : Type} (v : VecVal α) : Nat := v.val.length

/-- The implicit conversion of a C++ `int` value to `std::size_t`
(reduction modulo `2^64` on an LP64 platform). -/
def intToSizeT (i : Int) : Nat := (i % (2:Int)^64).toNat

/-- Models `internal::SizeDispatch<VecType,Enable>::eval`: the primary template
(`Enable = false`) returns `VecType::RowsAtCompileTime` converted to
`std::size_t`; the `true` specialization calls the run-time `size()`. -/
def SizeDispatch.eval {α : Type} (enable : Bool) (v : VecVal α) : Nat :=
  match enable with
  | false => intToSizeT v.rowsAtCompileTime
  | true => v.runtimeSize

/-- Models `Drake::size(vec)`: dispatches on `VecType::RowsAtCompileTime == -1`,
a function of the static row count only. -/
def size {α : Type} (v : VecVal α) : Nat :=
  SizeDispatch.eval (decide (v.rowsAtCompileTime = -1)) v

/-- Models `getRandomVector<VecType>()`: the `static_assert` rejects
`RowsAtCompileTime < 0` at compile time (modelled as `none`); otherwise a
`VecType<double>` is constructed from an Eigen random vector of the static
size.  The random source is a parameter. -/
def getRandomVector {α : Type} (rows : Int) (rand : Nat → α) : Option (List α) :=
  if 0 ≤ rows then some (List.ofFn fun i : Fin rows.toNat => rand i) else none

/-- Models `CombinedVector<ScalarType,Vector1,Vector2>`: owns the two sub-vectors
`vec1` and `vec2` (each represented by its dense form). -/
structure CombinedVector (α : Type) where
  vec1 : List α
  vec2 : List α

/-- Models `CombinedVector::first()`: read-only access to `vec1`. -/
def CombinedVector.first {α : Type} (c : CombinedVector α) : List α := c.vec1

/-- Models `CombinedVector::second()`: read-only access to `vec2`. -/
def CombinedVector.second {α : Type} (c : CombinedVector α) : List α := c.vec2

/-- Models `CombinedVector::size()`: `vec1.size() + vec2.size()`. -/
def CombinedVector.size {α : Type} (c : CombinedVector α) : Nat :=
  c.vec1.length + c.vec2.length

/-- Models `CombinedVector::RowsAtCompileTime`: the enum value
`vec1_rows + vec2_rows`. -/
def CombinedVector.rowsAtCompileTime (r1 r2 : Int) : Int := r1 + r2

/-- The single-expression constructor
`CombinedVector(x) : vec1(x.topRows(vec1_rows)), vec2(x.bottomRows(vec2_rows))`,
with `r1 = vec1_rows` and `r2 = vec2_rows`. -/
def CombinedVector.fromDense {α : Type} (r1 r2 : Nat) (x : List α) : CombinedVector α :=
  ⟨topRows r1 x, bottomRows r2 x⟩

/-- Models `CombinedVector::operator=(x)`: overwrites `vec1` with
`x.topRows(vec1_rows)` and `vec2` with `x.bottomRows(vec2_rows)`,
discarding the previous contents. -/
def CombinedVector.assignDense {α : Type} (r1 r2 : Nat) (_c : CombinedVector α)
    (x : List α) : CombinedVector α :=
  ⟨topRows r1 x, bottomRows r2 x⟩

/-- The friend `toEigen(CombinedVector)`: builds the dense vector
`x << toEigen(vec.vec1), toEigen(vec.vec2)`, i.e. the concatenation of the
two sub-vectors' dense forms, `first` on top of `second`. -/
def toEigenCombined {α : Type} (c : CombinedVector α) : List α :=
  toEigenVec c.vec1 ++ toEigenVec c.vec2

/-- The three outcomes of the `CombinedVectorBuilder` /
`CombinedVectorUtil` template dispatch: the primary template (genuine
pair-wrapper), the `Vector2`-zero-row specialization (type collapses to
`Vector1`), and the `Vector1`-zero-row specialization (type collapses to
`Vector2`). -/
inductive BuilderCase where
  | pairWrapper : BuilderCase
  | collapseToVector1 : BuilderCase
  | collapseToVector2 : BuilderCase
deriving DecidableEq, Repr

/-- Models `CombinedVectorBuilder<Vector1,Vector2>` case selection as a function
of the two `RowsAtCompileTime` values (evaluated on the `double`
instantiation).  The specialization guarded by
`enable_if<Vector2<double>::RowsAtCompileTime==0>` yields `Vector1`; the
one guarded by `enable_if<Vector1<double>::RowsAtCompileTime==0>` yields
`Vector2`; the primary template yields the `CombinedVector` pair-wrapper.
When both guards hold, the two partial specializations both match and
neither is more specialized, so the instantiation is ambiguous and
ill-formed (`none`). -/
def CombinedVectorBuilderSelect (r1 r2 : Int) : Option BuilderCase :=
  if r2 = 0 then
    if r1 = 0 then none
    else some BuilderCase.collapseToVector1
  else
    if r1 = 0 then some BuilderCase.collapseToVector2
    else some BuilderCase.pairWrapper

/-- Models `CombinedVectorUtil<Vector1,Vector2>` case selection: the util has the
same primary template and the same two `enable_if` partial specializations
(on `Vector2<double>::RowsAtCompileTime==0` and
`Vector1<double>::RowsAtCompileTime==0`) as the builder, so resolution
follows the same rule, including the double-zero ambiguity (`none`). -/
def CombinedVectorUtilSelect (r1 r2 : Int) : Option BuilderCase :=
  if r2 = 0 then
    if r1 = 0 then none
    else some BuilderCase.collapseToVector1
  else
    if r1 = 0 then some BuilderCase.collapseToVector2
    else some BuilderCase.pairWrapper

namespace CombinedVectorUtil

/-- Primary-template `CombinedVectorUtil::first`: the stored first
element of the pair-wrapper. -/
def firstGeneral {α : Type} (vec : CombinedVector α) : List α := vec.first

/-- Primary-template `CombinedVectorUtil::second`: the stored second
element of the pair-wrapper. -/
def secondGeneral {α : Type} (vec : CombinedVector α) : List α := vec.second

/-- Primary-template `CombinedVectorUtil::combine`: constructs the
pair-wrapper from the two sub-vectors. -/
def combineGeneral {α : Type} (v1 v2 : List α) : CombinedVector α := ⟨v1, v2⟩

/-- The `Vector2`-zero specialization `first`: the composed type is `Vector1`
itself, so the whole value is returned. -/
def firstV2Zero {α : Type} (vec : List α) : List α := vec

/-- The `Vector2`-zero specialization `second`: returns a freshly constructed
`NullVector<ScalarType>()`. -/
def secondV2Zero {α : Type} (_vec : List α) : List α := nullVector α

/-- The `Vector2`-zero specialization `combine`: returns `vec1` unchanged. -/
def combineV2Zero {α : Type} (v1 _v2 : List α) : List α := v1

/-- The `Vector1`-zero specialization `first`: returns a freshly constructed
`NullVector<ScalarType>()`. -/
def firstV1Zero {α : Type} (_vec : List α) : List α := nullVector α

/-- The `Vector1`-zero specialization `second`: the composed type is `Vector2`
itself, so the whole value is returned. -/
def secondV1Zero {α : Type} (vec : List α) : List α := vec

/-- The `Vector1`-zero specialization `combine`: returns `vec2` unchanged. -/
def combineV1Zero {α : Type} (_v1 v2 : List α) : List α := v2

end CombinedVectorUtil

/-- C1 (counterexample): the claim asserts that whenever
`Vector2<double>::RowsAtCompileTime == 0` the composed type is exactly
`Vector1` (with no restriction on `Vector1`).  At row counts `(0, 0)` both
zero-row specializations match and the instantiation is ambiguous, so the
builder does not collapse to `Vector1` (nor to `Vector2`). -/
theorem builder_collapse_claim_cex :
    ¬ (CombinedVectorBuilderSelect 0 0 = some BuilderCase.collapseToVector1) := by
  decide

/-- C1 (amended): if `Vector2`'s row count is 0 and `Vector1`'s is not, the
composed constructor is exactly `Vector1`; symmetrically if only `Vector1`
is the zero-row case the composed constructor is `Vector2`; if neither row
count is zero the composed type is the `CombinedVector` pair-wrapper; and
if both are zero the two specializations are ambiguous and the
instantiation is ill-formed, producing no type at all. -/
theorem builder_select_cases (r1 r2 : Int) :
    (r2 = 0 → r1 ≠ 0 →
      CombinedVectorBuilderSelect r1 r2 = some BuilderCase.collapseToVector1)
  ∧ (r1 = 0 → r2 ≠ 0 →
      CombinedVectorBuilderSelect r1 r2 = some BuilderCase.collapseToVector2)
  ∧ (r1 ≠ 0 → r2 ≠ 0 →
      CombinedVectorBuilderSelect r1 r2 = some BuilderCase.pairWrapper)
  ∧ (r1 = 0 → r2 = 0 → CombinedVectorBuilderSelect r1 r2 = none) := by
  unfold CombinedVectorBuilderSelect
  refine ⟨?_, ?_, ?_, ?_⟩ <;> intro h1 h2 <;> simp [h1, h2]

/-- Witness for C1's amended theorem at concrete row counts. -/
theorem builder_select_cases_witness :
    CombinedVectorBuilderSelect 3 0 = some BuilderCase.collapseToVector1
  ∧ CombinedVectorBuilderSelect 0 3 = some BuilderCase.collapseToVector2
  ∧ CombinedVectorBuilderSelect 3 2 = some BuilderCase.pairWrapper
  ∧ CombinedVectorBuilderSelect 0 0 = none :=
  ⟨(builder_select_cases 3 0).1 rfl (by decide),
   (builder_select_cases 0 3).2.1 rfl (by decide),
   (builder_select_cases 3 2).2.2.1 (by decide) (by decide),
   (builder_select_cases 0 0).2.2.2 rfl rfl⟩

/-- C2: the compile-time row count of a `CombinedVector` is the sum of the
two sub-vectors' compile-time row counts, and the run-time `size()` is the
sum of the two sub-vectors' run-time sizes, which equals the compile-time
row count when both sub-vectors have their static size. -/
theorem combined_size_eq_sum {α : Type} (r1 r2 : Nat) (c : CombinedVector α)
    (h1 : c.vec1.length = r1) (h2 : c.vec2.length = r2) :
    CombinedVector.rowsAtCompileTime r1 r2 = (r1 : Int) + r2
  ∧ c.size = c.vec1.length + c.vec2.length
  ∧ c.size = r1 + r2 := by
  refine ⟨rfl, rfl, ?_⟩
  simp [CombinedVector.size, h1, h2]

/-- Witness for C2 at the concrete combined vector `([1,2,3], [4,5])`. -/
theorem combined_size_eq_sum_witness :
    (⟨[1, 2, 3], [4, 5]⟩ : CombinedVector Int).size = 5 :=
  (combined_size_eq_sum 3 2 (⟨[1, 2, 3], [4, 5]⟩ : CombinedVector Int) rfl rfl).2.2

/-- C3: for fixed positive row counts, `toEigen` of `combine(a, b)` (the
general pair-wrapper case) is the concatenation of `toEigen a` and
`toEigen b`, and its total length is `rows a + rows b`. -/
theorem toEigen_combine_concat {α : Type} (r1 r2 : Nat) (a b : List α)
    (hr1 : 0 < r1) (hr2 : 0 < r2) (ha : a.length = r1) (hb : b.length = r2) :
    toEigenCombined (CombinedVectorUtil.combineGeneral a b) = toEigenVec a ++ toEigenVec b
  ∧ (toEigenCombined (CombinedVectorUtil.combineGeneral a b)).length = r1 + r2 := by
  constructor
  · rfl
  · simp [toEigenCombined, toEigenVec, CombinedVectorUtil.combineGeneral, ha, hb]

/-- Witness for C3 at `a = [1,2,3]`, `b = [4,5]`: the dense form is
`[1,2,3,4,5]` of length 5. -/
theorem toEigen_combine_concat_witness :
    toEigenCombined (CombinedVectorUtil.combineGeneral ([1, 2, 3] : List Int) [4, 5])
      = [1, 2, 3, 4, 5]
  ∧ (toEigenCombined (CombinedVectorUtil.combineGeneral ([1, 2, 3] : List Int) [4, 5])).length
      = 5 := by
  have h := toEigen_combine_concat 3 2 ([1, 2, 3] : List Int) [4, 5]
    (by decide) (by decide) rfl rfl
  exact ⟨h.1.trans rfl, h.2⟩

/-- C4: in each of the builder's three resolvable cases, reconstructing
`combine(first c, second c)` from a composed value `c` yields a value equal
to `c` (under dense-form equality; in the collapsed cases the composed
value is a plain sub-vector and the equality is literal). -/
theorem combine_first_second_roundtrip {α : Type} (c : CombinedVector α) (v w : List α) :
    toEigenCombined (CombinedVectorUtil.combineGeneral
      (CombinedVectorUtil.firstGeneral c) (CombinedVectorUtil.secondGeneral c))
      = toEigenCombined c
  ∧ CombinedVectorUtil.combineV2Zero
      (CombinedVectorUtil.firstV2Zero v) (CombinedVectorUtil.secondV2Zero v) = v
  ∧ CombinedVectorUtil.combineV1Zero
      (CombinedVectorUtil.firstV1Zero w) (CombinedVectorUtil.secondV1Zero w) = w :=
  ⟨rfl, rfl, rfl⟩

/-- C5: null-vector identity laws.  With `Vector2` the null type and
`Vector1` of positive row count, the builder collapses to `Vector1`,
`combine(a, nullVec) = a`, `first(combine(a, nullVec)) = a`, and
`second(combine(a, nullVec))` is a null vector of size 0; symmetrically
when `Vector1` is the null type. -/
theorem null_vector_identity_laws {α : Type} (r1 r2 : Nat) (a b : List α)
    (hr1 : 0 < r1) (ha : a.length = r1) (hr2 : 0 < r2) (hb : b.length = r2) :
    CombinedVectorBuilderSelect r1 0 = some BuilderCase.collapseToVector1
  ∧ CombinedVectorUtil.combineV2Zero a (nullVector α) = a
  ∧ CombinedVectorUtil.firstV2Zero (CombinedVectorUtil.combineV2Zero a (nullVector α)) = a
  ∧ CombinedVectorUtil.secondV2Zero (CombinedVectorUtil.combineV2Zero a (nullVector α))
      = nullVector α
  ∧ (CombinedVectorUtil.secondV2Zero
      (CombinedVectorUtil.combineV2Zero a (nullVector α))).length = 0
  ∧ CombinedVectorBuilderSelect 0 r2 = some BuilderCase.collapseToVector2
  ∧ CombinedVectorUtil.combineV1Zero (nullVector α) b = b
  ∧ CombinedVectorUtil.secondV1Zero (CombinedVectorUtil.combineV1Zero (nullVector α) b) = b
  ∧ (CombinedVectorUtil.firstV1Zero
      (CombinedVectorUtil.combineV1Zero (nullVector α) b)).length = 0 := by
  have h1 : (r1 : Int) ≠ 0 := by omega
  have h2 : (r2 : Int) ≠ 0 := by omega
  refine ⟨?_, rfl, rfl, rfl, rfl, ?_, rfl, rfl, rfl⟩
  · simp [CombinedVectorBuilderSelect, h1]
  · simp [CombinedVectorBuilderSelect, h2]

/-- Witness for C5 at `a = [7,8]` and `b = [7,8]` (row count 2 on the
non-null side). -/
theorem null_vector_identity_laws_witness :
    CombinedVectorBuilderSelect 2 0 = some BuilderCase.collapseToVector1
  ∧ CombinedVectorUtil.combineV2Zero ([7, 8] : List Int) (nullVector Int) = [7, 8]
  ∧ CombinedVectorBuilderSelect 0 2 = some BuilderCase.collapseToVector2
  ∧ CombinedVectorUtil.combineV1Zero (nullVector Int) ([7, 8] : List Int) = [7, 8] := by
  have h := null_vector_identity_laws 2 2 ([7, 8] : List Int) ([7, 8] : List Int)
    (by decide) rfl (by decide) rfl
  exact ⟨h.1, h.2.1, h.2.2.2.2.2.1, h.2.2.2.2.2.2.1⟩

/-- C6: constructing (or assigning) a `CombinedVector` from a single dense
expression of total length `r1 + r2` stores the leading `r1` rows in the
first sub-vector and the trailing `r2` rows in the second: the split point
is `Vector1`'s compile-time row count, matching the `first`/`second`
decomposition. -/
theorem split_construction_law {α : Type} (r1 r2 : Nat) (c : CombinedVector α)
    (x : List α) (hx : x.length = r1 + r2) :
    (CombinedVector.fromDense r1 r2 x).first = x.take r1
  ∧ (CombinedVector.fromDense r1 r2 x).second = x.drop r1
  ∧ CombinedVector.assignDense r1 r2 c x = CombinedVector.fromDense r1 r2 x := by
  refine ⟨rfl, ?_, rfl⟩
  show bottomRows r2 x = x.drop r1
  unfold bottomRows
  congr 1
  omega

/-- Witness for C6 at `x = [1,2,3,4,5]` split as `3 + 2`. -/
theorem split_construction_law_witness :
    (CombinedVector.fromDense 3 2 ([1, 2, 3, 4, 5] : List Int)).first = [1, 2, 3]
  ∧ (CombinedVector.fromDense 3 2 ([1, 2, 3, 4, 5] : List Int)).second = [4, 5] := by
  have h := split_construction_law 3 2 (⟨[], []⟩ : CombinedVector Int)
    ([1, 2, 3, 4, 5] : List Int) rfl
  exact ⟨h.1.trans rfl, h.2.1.trans rfl⟩

/-- C7 (counterexample): when both row counts are 0, the builder does not
produce `Vector1`'s type (nor `Vector2`'s): no case is selected at all,
because the two zero-row partial specializations are ambiguous. -/
theorem double_zero_priority_cex :
    CombinedVectorBuilderSelect 0 0 ≠ some BuilderCase.collapseToVector1
  ∧ CombinedVectorBuilderSelect 0 0 ≠ some BuilderCase.collapseToVector2 := by
  decide

/-- C7 (amended): when both `Vector1` and `Vector2` have compile-time row
count 0, both zero-row partial specializations of the builder (and of the
util) match and neither is more specialized, so the instantiation is
ambiguous and ill-formed: no composed type, and hence no composed value,
exists.  Neither collapse rule takes priority. -/
theorem double_zero_ill_formed :
    CombinedVectorBuilderSelect 0 0 = none ∧ CombinedVectorUtilSelect 0 0 = none := by
  decide

/-- C8: `CombinedVectorUtil`'s three-way dispatch selects exactly the same
case as `CombinedVectorBuilder`'s type selection for every pair of row
counts, including the ill-formed double-zero case. -/
theorem util_builder_agree (r1 r2 : Int) :
    CombinedVectorUtilSelect r1 r2 = CombinedVectorBuilderSelect r1 r2 := rfl

/-- C9: for a value of a type satisfying the Vector concept (static row
count non-negative or the dynamic sentinel `-1`, and within `int` range),
`size` returns the static `RowsAtCompileTime` when that count differs from
the dynamic sentinel, and the run-time `size()` result when it equals the
sentinel; the dispatch condition is a function of the static row count
only. -/
theorem size_dispatch_correct {α : Type} (v : VecVal α)
    (hconcept : 0 ≤ v.rowsAtCompileTime ∨ v.rowsAtCompileTime = -1)
    (hint : v.rowsAtCompileTime < 2 ^ 31) :
    (v.rowsAtCompileTime ≠ -1 → Drake.size v = v.rowsAtCompileTime.toNat)
  ∧ (v.rowsAtCompileTime = -1 → Drake.size v = v.runtimeSize) := by
  constructor
  · intro hne
    have h0 : 0 ≤ v.rowsAtCompileTime := hconcept.resolve_right hne
    have hb : decide (v.rowsAtCompileTime = -1) = false := decide_eq_false hne
    unfold Drake.size
    rw [hb]
    show intToSizeT v.rowsAtCompileTime = v.rowsAtCompileTime.toNat
    unfold intToSizeT
    omega
  · intro he
    simp [Drake.size, SizeDispatch.eval, he]

/-- Witness for C9: a static 3-row value reports size 3; a dynamic value
holding two entries reports size 2. -/
theorem size_dispatch_correct_witness :
    Drake.size (⟨3, [10, 20, 30]⟩ : VecVal Int) = 3
  ∧ Drake.size (⟨-1, [5, 6]⟩ : VecVal Int) = 2 := by
  constructor
  · have h := (size_dispatch_correct (⟨3, [10, 20, 30]⟩ : VecVal Int)
      (Or.inl (by decide)) (by decide)).1 (by decide)
    simpa using h
  · have h := (size_dispatch_correct (⟨-1, [5, 6]⟩ : VecVal Int)
      (Or.inr rfl) (by decide)).2 rfl
    simpa [VecVal.runtimeSize] using h

/-- C10: `getRandomVector` rejects every vector type constructor with a
negative (dynamic) `RowsAtCompileTime` at compile time via the
`static_assert`, and for a non-negative static row count it returns a
vector of exactly that static size. -/
theorem getRandomVector_static_sized {α : Type} (rows : Int) (rand : Nat → α) :
    (rows < 0 → getRandomVector rows rand = none)
  ∧ (0 ≤ rows → (getRandomVector rows rand).map List.length = some rows.toNat) := by
  constructor
  · intro h
    simp [getRandomVector, not_le.mpr h]
  · intro h
    simp [getRandomVector, h]

/-- Witness for C10: the dynamic sentinel `-1` is rejected, and a 3-row
constructor yields a vector of length 3. -/
theorem getRandomVector_static_sized_witness :
    getRandomVector (-1) (fun n => (n : Int)) = none
  ∧ (getRandomVector 3 (fun n => (n : Int))).map List.length = some 3 :=
  ⟨(getRandomVector_static_sized (-1) (fun n => (n : Int))).1 (by decide),
   (getRandomVector_static_sized 3 (fun n => (n : Int))).2 (by decide)⟩

end Drake
